import Mathlib

/-!
Verification of the fastship shipment-management backend core
(`src/backend/app`): shallow embedding in Lean 4 of the data model
(`app/database/models.py`), the shipment lifecycle service
(`app/services/shipment.py`), the event service (`app/services/event.py`)
and the delivery-partner assignment engine
(`app/services/delivery_partner.py`), together with theorems settling the
spec claims about them.

Modelling conventions:
- machine integers are `Nat`/`Int`; timestamps (`created_at`,
  `estimated_delivery`) are abstract `Nat` instants (the timezone
  normalisation in `ShipmentService.update` is a no-op on naive instants);
- the async database session is modelled by explicit state passing; every
  `session.commit()` of the source is a separate entry in a commit trace
  where the claims need it;
- fallible service methods return `Except ServiceError` (exceptions raised
  before any mutation), or a `state × Option ServiceError` pair where the
  claim needs the committed state at raise time;
- the Redis lookup `get_shipment_verification_code(shipment.id)`
  (`app/database/redis.py`) is passed in as the `storedCode` argument: it
  is the value currently held by the verification-code store, `none` when
  absent or expired;
- fresh primary keys (uuid4) and `datetime.now()` are passed in as `eid` /
  `now` arguments.
-/

namespace FastShip

/-- `ShipmentStatus` enum of `app/database/models.py`. -/
inductive ShipmentStatus where
  | placed
  | in_transit
  | out_for_delivery
  | delivered
  | cancelled
deriving DecidableEq, Repr

/-- `TagName` enum of `app/database/models.py` (the Python member `RETURN`
is rendered `return_` because `return` is a Lean keyword). -/
inductive TagName where
  | express
  | standard
  | fragile
  | heavy
  | international
  | domestic
  | temperature_controlled
  | gift
  | return_
  | documents
deriving DecidableEq, Repr

/-- The `.value` string of a `TagName` member. -/
def tagNameValue : TagName → String
  | .express => "express"
  | .standard => "standard"
  | .fragile => "fragile"
  | .heavy => "heavy"
  | .international => "international"
  | .domestic => "domestic"
  | .temperature_controlled => "temperature_controlled"
  | .gift => "gift"
  | .return_ => "return"
  | .documents => "documents"

/-- `ShipmentEvent` row of `app/database/models.py`. -/
structure ShipmentEvent where
  id : Nat
  created_at : Nat
  location : Int
  status : ShipmentStatus
  description : Option String
deriving DecidableEq, Repr

/-- `Shipment` row of `app/database/models.py`, with its `events`
relationship inlined (the `tags` relationship is modelled separately by
`TagState` below, and `weight` / phone fields are not referenced by any
claim). `delivery_partner_id` is `Option` because the in-memory object is
built before the foreign key is filled in (`ShipmentService.add`). -/
structure Shipment where
  id : Nat
  created_at : Nat
  client_contact_email : String
  content : String
  destination : Int
  status : ShipmentStatus
  estimated_delivery : Nat
  seller_id : Nat
  delivery_partner_id : Option Nat
  events : List ShipmentEvent
deriving DecidableEq, Repr

/-- The error taxonomy of `app/core/exceptions.py`, restricted to the
kinds raised by the services under verification. -/
inductive ServiceError where
  | validationError (msg : String)
  | clientNotAuthorized (msg : String)
  | entityNotFound (msg : String)
  | invalidToken (msg : String)
  | alreadyExistsError (msg : String)
  | deliveryPartnerNotAvailable (msg : String)
deriving DecidableEq, Repr

/-- The newest-first order used by `Shipment.timeline`:
`sorted(self.events, key=lambda e: e.created_at, reverse=True)`. -/
def eventDescOrder (a b : ShipmentEvent) : Prop :=
  b.created_at ≤ a.created_at

instance : DecidableRel eventDescOrder :=
  fun a b => Nat.decLe b.created_at a.created_at

instance : IsTotal ShipmentEvent eventDescOrder :=
  ⟨fun a b => Nat.le_total b.created_at a.created_at⟩

instance : IsTrans ShipmentEvent eventDescOrder :=
  ⟨fun _ _ _ h1 h2 => Nat.le_trans h2 h1⟩

/-- `Shipment.timeline` property of `app/database/models.py`: events in
reverse chronological order (newest first). Python `sorted` is a stable
sort; `List.insertionSort` with `eventDescOrder` is the stable descending
sort by `created_at`, hence extensionally the same function. -/
def Shipment.timeline (s : Shipment) : List ShipmentEvent :=
  if s.events = [] then []
  else List.insertionSort eventDescOrder s.events

/-- `ShipmentEventService.get_latest_event` of `app/services/event.py`:
returns `timeline[-1]`, the last element of the newest-first timeline. -/
def getLatestEvent (s : Shipment) : Option ShipmentEvent :=
  if s.events.isEmpty then none
  else if s.timeline.isEmpty then none
  else s.timeline.getLast?

/-- `ShipmentEventService._generate_description` of
`app/services/event.py`. -/
def generateDescription (status : ShipmentStatus) (location : Int) : String :=
  match status with
  | .placed => "assigned delivery partner"
  | .out_for_delivery => "shipment out for delivery"
  | .delivered => "successfully delivered"
  | .cancelled => "cancelled by seller"
  | .in_transit => "scanned at " ++ toString location

/-- `ShipmentEventService.create_event` of `app/services/event.py`: the
constructed event row (`eid`, `now` stand for the fresh uuid4 id and
`datetime.now()`).  Location inheritance: an unsupplied location falls
back to `get_latest_event`, then to the shipment destination. The
notification dispatch at the end of the source method is external I/O
outside the claims. -/
def createEvent (shipment : Shipment) (status : ShipmentStatus)
    (location : Option Int) (description : Option String)
    (eid now : Nat) : ShipmentEvent :=
  let loc : Int :=
    match location with
    | some l => l
    | none =>
      match getLatestEvent shipment with
      | some e => e.location
      | none => shipment.destination
  let desc : String :=
    match description with
    | some d => d
    | none => generateDescription status loc
  { id := eid, created_at := now, location := loc,
    status := status, description := some desc }

/-- `DeliveryPartner` row of `app/database/models.py`, with its
`shipments` and `servicable_locations` relationships inlined (the latter
as the list of zip codes). -/
structure DeliveryPartner where
  id : Nat
  name : String
  email : String
  max_handling_capacity : Int
  shipments : List Shipment
  servicable_locations : List Int
deriving DecidableEq, Repr

/-- `DeliveryPartner.active_shipments` property: shipments whose status is
not `delivered`. -/
def DeliveryPartner.active_shipments (p : DeliveryPartner) : List Shipment :=
  p.shipments.filter (fun s => s.status ≠ ShipmentStatus.delivered)

/-- `DeliveryPartner.current_handling_capacity` property:
`max_handling_capacity - len(active_shipments)`, computed on every read. -/
def DeliveryPartner.current_handling_capacity (p : DeliveryPartner) : Int :=
  p.max_handling_capacity - (p.active_shipments.length : Int)

/-- `partner.shipments.append(shipment)`: the in-memory mutation performed
on the partner object chosen by `assign_shipment`. -/
def DeliveryPartner.withShipment (p : DeliveryPartner) (s : Shipment) :
    DeliveryPartner :=
  { p with shipments := p.shipments ++ [s] }

/-- `DeliveryPartnerService.get_partner_by_zipcode` of
`app/services/delivery_partner.py`: the partners whose
`servicable_locations` contain the zip code, in retrieval order (the
order of the `partners` list stands for the implementation-defined
retrieval order of the SQL join). -/
def getPartnerByZipcode (partners : List DeliveryPartner) (zipcode : Int) :
    List DeliveryPartner :=
  partners.filter (fun p => p.servicable_locations.contains zipcode)

/-- Result of a successful `assign_shipment`: the returned (mutated)
partner object, and the partner collection with that same mutation
visible in it (object aliasing rendered as update-by-id). -/
structure AssignResult where
  partner : DeliveryPartner
  partners : List DeliveryPartner
deriving DecidableEq, Repr

/-- `DeliveryPartnerService.assign_shipment` of
`app/services/delivery_partner.py`: iterate the eligible partners and
return the first one with `current_handling_capacity > 0`, after
appending the shipment to its `shipments` list; otherwise raise
`DeliveryPartnerNotAvailable`. No commit is performed. -/
def assignShipment (partners : List DeliveryPartner) (shipment : Shipment) :
    Except ServiceError AssignResult :=
  let eligible := getPartnerByZipcode partners shipment.destination
  match eligible.find? (fun p => 0 < p.current_handling_capacity) with
  | some p =>
      Except.ok
        ⟨p.withShipment shipment,
         partners.map (fun q => if q.id = p.id then q.withShipment shipment else q)⟩
  | none =>
      Except.error (ServiceError.deliveryPartnerNotAvailable "No delivery partner available")

/-- `ShipmentUpdate` schema of `app/api/schemas/shipment.py`: every field
optional; the API layer additionally enforces `min_length=4` on
`verification_code`, so a supplied code is never the empty string. -/
structure ShipmentUpdate where
  status : Option ShipmentStatus
  location : Option Int
  description : Option String
  verification_code : Option String
  estimated_delivery : Option Nat
deriving DecidableEq, Repr

/-- Python truthiness test `not x` on an optional string: true for `None`
and for the empty string. -/
def optStrFalsy : Option String → Bool
  | none => true
  | some s => s = ""

/-- The Phase 1 authorization check of `ShipmentService.update`: an error
is raised only when a partner object was supplied and its id differs from
the shipment foreign key. -/
def authFailed (shipment : Shipment) (partner : Option DeliveryPartner) : Bool :=
  match partner with
  | some p => shipment.delivery_partner_id ≠ some p.id
  | none => false

/-- Result of an accepted `update` / `cancel` call: the returned shipment
and the trace of committed states, one entry per `session.commit()` of
the source, in execution order (`eventAppended` records whether the
status-or-location branch created an event). -/
structure UpdateResult where
  shipment : Shipment
  eventAppended : Bool
  commits : List Shipment
deriving DecidableEq, Repr

/-- The field mutation and event-append tail of `ShipmentService.update`
(`app/services/shipment.py`), entered once every validation has passed:
apply `estimated_delivery` and `status` when supplied, commit
(`self._update`), then create and commit an event exactly when the status
changed or a location was supplied. `update_data` in the source is
computed but never applied, so no other shipment field changes. -/
def applyUpdate (shipment : Shipment) (u : ShipmentUpdate)
    (eid now : Nat) : Except ServiceError UpdateResult :=
  let s1 : Shipment :=
    { shipment with
      estimated_delivery := u.estimated_delivery.getD shipment.estimated_delivery
      status := u.status.getD shipment.status }
  let status_changed : Bool :=
    match u.status with
    | some st => st ≠ shipment.status
    | none => false
  if status_changed || u.location.isSome then
    let ev := createEvent s1 (u.status.getD shipment.status)
      u.location u.description eid now
    let s2 : Shipment := { s1 with events := s1.events ++ [ev] }
    Except.ok ⟨s2, true, [s1, s2]⟩
  else
    Except.ok ⟨s1, false, [s1]⟩

/-- `ShipmentService.update` of `app/services/shipment.py`: terminal-state
guard, optional partner authorization, verification-code gate for
`delivered`, then the mutation tail. The nested verification branch of
the source is flattened into two sequential guards with identical control
flow. `storedCode` is the current value of the verification-code store
for this shipment. -/
def ShipmentService.update (shipment : Shipment) (u : ShipmentUpdate)
    (partner : Option DeliveryPartner) (storedCode : Option String)
    (eid now : Nat) : Except ServiceError UpdateResult :=
  if shipment.status = ShipmentStatus.cancelled then
    Except.error (ServiceError.validationError "Cannot update a cancelled shipment")
  else if shipment.status = ShipmentStatus.delivered then
    Except.error (ServiceError.validationError "Cannot update a delivered shipment")
  else if authFailed shipment partner then
    Except.error (ServiceError.clientNotAuthorized "Not authorized")
  else if u.status = some ShipmentStatus.delivered ∧ optStrFalsy u.verification_code = true then
    Except.error (ServiceError.validationError
      "Verification code is required to mark shipment as delivered")
  else if u.status = some ShipmentStatus.delivered ∧
      (optStrFalsy storedCode = true ∨ storedCode ≠ u.verification_code) then
    Except.error (ServiceError.invalidToken "Invalid or expired verification code")
  else
    applyUpdate shipment u eid now

/-- `ShipmentService.cancel` of `app/services/shipment.py`, on a shipment
that was found (`EntityNotFound` on a missing id is outside the claims):
owner check, then set status to `cancelled`, commit (`self._update`),
create and commit a cancellation event. There is no terminal-state guard
in the source method. -/
def ShipmentService.cancel (shipment : Shipment) (sellerId : Nat)
    (eid now : Nat) : Except ServiceError UpdateResult :=
  if shipment.seller_id ≠ sellerId then
    Except.error (ServiceError.clientNotAuthorized "Not authorized to cancel this shipment")
  else
    let s1 : Shipment := { shipment with status := ShipmentStatus.cancelled }
    let ev := createEvent s1 ShipmentStatus.cancelled none
      (some "cancelled by seller") eid now
    let s2 : Shipment := { s1 with events := s1.events ++ [ev] }
    Except.ok ⟨s2, true, [s1, s2]⟩

/-- `ShipmentCreate` schema of `app/api/schemas/shipment.py` (fields the
claims reference). -/
structure ShipmentCreate where
  content : String
  destination : Int
  client_contact_email : String
deriving DecidableEq, Repr

/-- Outcome of `ShipmentService.add`: the partner collection and the
committed shipment store after the call, plus the returned shipment or
the propagated error. On error the stores are exactly the inputs. -/
structure AddResult where
  partners : List DeliveryPartner
  store : List Shipment
  result : Except ServiceError Shipment
deriving Repr

/-- The in-memory `Shipment(**shipment_create.model_dump(), status=placed,
estimated_delivery=now + 3 days, seller_id=seller.id)` built at the top
of `ShipmentService.add`. -/
def newShipmentFor (sc : ShipmentCreate) (sellerId newId now : Nat) : Shipment :=
  { id := newId, created_at := now,
    client_contact_email := sc.client_contact_email,
    content := sc.content, destination := sc.destination,
    status := ShipmentStatus.placed,
    estimated_delivery := now + 3,
    seller_id := sellerId,
    delivery_partner_id := none,
    events := [] }

/-- `ShipmentService.add` of `app/services/shipment.py`: build the new
shipment with status `placed` and estimated delivery `now + 3` days,
assign a partner (raising before anything is persisted when none is
available), set the foreign key, commit the shipment, then create the
initial `placed` event. The `Seller` model has no `zip_code` attribute,
so the `hasattr` fallback in the source always selects
`shipment.destination` as the event location. -/
def ShipmentService.add (partners : List DeliveryPartner)
    (store : List Shipment) (sc : ShipmentCreate) (sellerId : Nat)
    (newId eid now : Nat) : AddResult :=
  let newShipment : Shipment := newShipmentFor sc sellerId newId now
  match assignShipment partners newShipment with
  | Except.error e => ⟨partners, store, Except.error e⟩
  | Except.ok ar =>
      let s1 : Shipment := { newShipment with delivery_partner_id := some ar.partner.id }
      let ev := createEvent s1 ShipmentStatus.placed
        (some s1.destination) (some ("assigned to " ++ ar.partner.name)) eid now
      let s2 : Shipment := { s1 with events := s1.events ++ [ev] }
      ⟨ar.partners, store ++ [s2], Except.ok s2⟩

/-- `Tag` row of `app/database/models.py`. -/
structure Tag where
  id : Nat
  name : TagName
  instruction : String
deriving DecidableEq, Repr

/-- The relational state touched by the tag operations: the global `tag`
table, the `shipment.tags` relationship of the shipment under operation,
and the next fresh primary key. -/
structure TagState where
  tagTable : List Tag
  shipmentTags : List Tag
  nextId : Nat
deriving DecidableEq, Repr

/-- `select(Tag).where(Tag.name == tag_name)` followed by `.scalar()`:
the first tag row with the given name. -/
def findTagByName (table : List Tag) (n : TagName) : Option Tag :=
  table.find? (fun t => t.name = n)

/-- Outcome of a tag operation: the committed state when the method
returns or raises, and the raised error if any. -/
structure TagOpResult where
  state : TagState
  error : Option ServiceError
deriving DecidableEq, Repr

/-- `ShipmentService.add_tag` of `app/services/shipment.py`, on a
shipment that was found: get-or-create the tag row by name (the creation
is committed on its own), raise `AlreadyExistsError` when the row is
already attached to the shipment, otherwise append it and commit. -/
def ShipmentService.add_tag (st : TagState) (n : TagName) : TagOpResult :=
  match findTagByName st.tagTable n with
  | some tag =>
      if tag ∈ st.shipmentTags then
        ⟨st, some (ServiceError.alreadyExistsError
          ("Tag " ++ tagNameValue n ++ " already exists on this shipment"))⟩
      else
        ⟨{ st with shipmentTags := st.shipmentTags ++ [tag] }, none⟩
  | none =>
      let tag : Tag := ⟨st.nextId, n, "Handle with care: " ++ tagNameValue n⟩
      let st1 : TagState :=
        { st with tagTable := st.tagTable ++ [tag], nextId := st.nextId + 1 }
      if tag ∈ st1.shipmentTags then
        ⟨st1, some (ServiceError.alreadyExistsError
          ("Tag " ++ tagNameValue n ++ " already exists on this shipment"))⟩
      else
        ⟨{ st1 with shipmentTags := st1.shipmentTags ++ [tag] }, none⟩

/-- `ShipmentService.remove_tag` of `app/services/shipment.py`, on a
shipment that was found: look the tag row up by name, raise
`EntityNotFound` when there is no such row or it is not attached to the
shipment, otherwise remove the first occurrence (`list.remove`) and
commit. -/
def ShipmentService.remove_tag (st : TagState) (n : TagName) : TagOpResult :=
  match findTagByName st.tagTable n with
  | none =>
      ⟨st, some (ServiceError.entityNotFound
        ("Tag " ++ tagNameValue n ++ " not found on this shipment"))⟩
  | some tag =>
      if tag ∈ st.shipmentTags then
        ⟨{ st with shipmentTags := st.shipmentTags.erase tag }, none⟩
      else
        ⟨st, some (ServiceError.entityNotFound
          ("Tag " ++ tagNameValue n ++ " not found on this shipment"))⟩

/-! ## Helper lemmas -/

/-- A successful `find?` splits the list at the found element: everything
before it fails the predicate. -/
theorem find?_eq_some_split {α : Type} (p : α → Bool) (l : List α) (a : α)
    (h : l.find? p = some a) :
    p a = true ∧ ∃ l1 l2, l = l1 ++ a :: l2 ∧ ∀ x ∈ l1, p x = false := by
  induction l with
  | nil => simp at h
  | cons b bs ih =>
    cases hb : p b with
    | true =>
      rw [List.find?_cons_of_pos _ hb] at h
      cases h
      exact ⟨hb, [], bs, rfl, by simp⟩
    | false =>
      rw [List.find?_cons_of_neg _ (by simp [hb])] at h
      obtain ⟨hpa, l1, l2, rfl, hall⟩ := ih h
      refine ⟨hpa, b :: l1, l2, rfl, ?_⟩
      intro x hx
      rcases List.mem_cons.mp hx with rfl | hx'
      · exact hb
      · exact hall x hx'

/-- The element reported by `getLast?` is a member of the list. -/
theorem mem_of_getLast?_eq_some {α : Type} {l : List α} {z : α}
    (hz : l.getLast? = some z) : z ∈ l := by
  obtain ⟨h, hzl⟩ := List.mem_getLast?_eq_getLast (show z ∈ l.getLast? from hz)
  exact hzl ▸ List.getLast_mem h

/-- In a list sorted newest-first by `created_at`, the last element has
minimal `created_at`. -/
theorem sorted_getLast?_min {l : List ShipmentEvent} {z : ShipmentEvent}
    (hp : List.Pairwise eventDescOrder l) (hz : l.getLast? = some z) :
    ∀ x ∈ l, z.created_at ≤ x.created_at := by
  induction l with
  | nil => cases hz
  | cons a t ih =>
    intro x hx
    cases t with
    | nil =>
      have ha : a = z := by simpa using hz
      subst ha
      have hxa : x = a := by simpa using hx
      exact hxa ▸ Nat.le_refl _
    | cons b t2 =>
      have hz' : (b :: t2).getLast? = some z := by
        rw [← List.getLast?_cons_cons (a := a)]; exact hz
      rcases List.mem_cons.mp hx with rfl | hx'
      · have hzmem : z ∈ b :: t2 := mem_of_getLast?_eq_some hz'
        exact (List.pairwise_cons.mp hp).1 z hzmem
      · exact ih (List.pairwise_cons.mp hp).2 hz' x hx'

/-! ## Claim C7 -/

/-- Concrete partner for the C7 witness: one cancelled and one delivered
assigned shipment. -/
def c7CancelledShipment : Shipment :=
  { id := 3, created_at := 0, client_contact_email := "client@example.com",
    content := "Books", destination := 887,
    status := ShipmentStatus.cancelled, estimated_delivery := 3,
    seller_id := 7, delivery_partner_id := some 1, events := [] }

def c7DeliveredShipment : Shipment :=
  { c7CancelledShipment with id := 4, status := ShipmentStatus.delivered }

def c7Partner : DeliveryPartner :=
  { id := 1, name := "A", email := "a@example.com",
    max_handling_capacity := 5,
    shipments := [c7CancelledShipment, c7DeliveredShipment],
    servicable_locations := [887] }

/-- C7: a delivery partner's `active_shipments` is exactly its assigned
shipments whose status is not `delivered` (so cancelled shipments still
count), `current_handling_capacity` is `max_handling_capacity` minus the
number of active shipments, and the capacity is a pure function of the
current shipment list and maximum (recomputed on read, not stored). -/
theorem c7_active_shipments_and_capacity (p : DeliveryPartner) (s : Shipment) :
    (s ∈ p.active_shipments ↔ s ∈ p.shipments ∧ s.status ≠ ShipmentStatus.delivered) ∧
    (s.status = ShipmentStatus.cancelled → (s ∈ p.active_shipments ↔ s ∈ p.shipments)) ∧
    p.current_handling_capacity =
      p.max_handling_capacity - (p.active_shipments.length : Int) ∧
    (∀ q : DeliveryPartner, q.shipments = p.shipments →
      q.max_handling_capacity = p.max_handling_capacity →
      q.current_handling_capacity = p.current_handling_capacity) := by
  refine ⟨?_, ?_, rfl, ?_⟩
  · simp [DeliveryPartner.active_shipments, List.mem_filter]
  · intro hc
    simp [DeliveryPartner.active_shipments, List.mem_filter, hc]
  · intro q h1 h2
    simp [DeliveryPartner.current_handling_capacity,
      DeliveryPartner.active_shipments, h1, h2]

/-- C7 witness: on a partner holding one cancelled and one delivered
shipment, the cancelled shipment is active and the capacity is 5 - 1. -/
theorem c7_active_shipments_and_capacity_witness :
    ((c7CancelledShipment ∈ c7Partner.active_shipments ↔
        c7CancelledShipment ∈ c7Partner.shipments ∧
        c7CancelledShipment.status ≠ ShipmentStatus.delivered) ∧
      (c7CancelledShipment.status = ShipmentStatus.cancelled →
        (c7CancelledShipment ∈ c7Partner.active_shipments ↔
          c7CancelledShipment ∈ c7Partner.shipments)) ∧
      c7Partner.current_handling_capacity =
        c7Partner.max_handling_capacity - (c7Partner.active_shipments.length : Int) ∧
      (∀ q : DeliveryPartner, q.shipments = c7Partner.shipments →
        q.max_handling_capacity = c7Partner.max_handling_capacity →
        q.current_handling_capacity = c7Partner.current_handling_capacity)) ∧
    c7Partner.current_handling_capacity = 4 :=
  ⟨c7_active_shipments_and_capacity c7Partner c7CancelledShipment, by decide⟩

/-! ## Claim C1 -/

/-- A delivered shipment owned by seller 7. -/
def c1Shipment : Shipment :=
  { id := 1, created_at := 0, client_contact_email := "client@example.com",
    content := "Laptop", destination := 887,
    status := ShipmentStatus.delivered, estimated_delivery := 3,
    seller_id := 7, delivery_partner_id := some 2, events := [] }

def c1Update : ShipmentUpdate := ⟨none, none, none, none, none⟩

/-- C1 counterexample: `cancel` performs no terminal-state check, so a
cancel of a delivered shipment by its owning seller succeeds, resets the
status to `cancelled` and appends a cancellation event, contradicting the
claim that any further cancel on a terminal shipment fails. -/
theorem c1_counterexample :
    c1Shipment.status = ShipmentStatus.delivered ∧
    (ShipmentService.cancel c1Shipment 7 10 11).toOption.map
      (fun r => (r.shipment.status, r.shipment.events.length)) =
      some (ShipmentStatus.cancelled, 1) :=
  ⟨rfl, rfl⟩

/-- C1 (amended): once a shipment is delivered or cancelled every further
`update` fails with a `ValidationError` before any mutation, but `cancel`
has no terminal-state guard: a cancel by the owning seller succeeds even
on a terminal shipment, (re)setting the status to `cancelled` and
appending a cancellation event. -/
theorem c1_terminal_guard (sh : Shipment)
    (h : sh.status = ShipmentStatus.delivered ∨ sh.status = ShipmentStatus.cancelled)
    (u : ShipmentUpdate) (partner : Option DeliveryPartner)
    (storedCode : Option String) (eid now sellerId : Nat) :
    (∃ msg, ShipmentService.update sh u partner storedCode eid now =
      Except.error (ServiceError.validationError msg)) ∧
    (sellerId = sh.seller_id →
      ∃ r, ShipmentService.cancel sh sellerId eid now = Except.ok r ∧
        r.shipment.status = ShipmentStatus.cancelled ∧
        r.shipment.events.length = sh.events.length + 1) := by
  constructor
  · rcases h with h | h
    · exact ⟨"Cannot update a delivered shipment", by
        unfold ShipmentService.update
        rw [h]
        simp⟩
    · exact ⟨"Cannot update a cancelled shipment", by
        unfold ShipmentService.update
        rw [h]
        simp⟩
  · intro hs
    subst hs
    unfold ShipmentService.cancel
    rw [if_neg (by simp)]
    exact ⟨_, rfl, rfl, by simp⟩

/-- C1 amended-claim witness at the delivered shipment `c1Shipment`. -/
theorem c1_terminal_guard_witness :
    (c1Shipment.status = ShipmentStatus.delivered ∨
      c1Shipment.status = ShipmentStatus.cancelled) ∧
    ((∃ msg, ShipmentService.update c1Shipment c1Update none none 10 11 =
        Except.error (ServiceError.validationError msg)) ∧
     (7 = c1Shipment.seller_id →
      ∃ r, ShipmentService.cancel c1Shipment 7 10 11 = Except.ok r ∧
        r.shipment.status = ShipmentStatus.cancelled ∧
        r.shipment.events.length = c1Shipment.events.length + 1)) :=
  ⟨Or.inl rfl, c1_terminal_guard c1Shipment (Or.inl rfl) c1Update none none 10 11 7⟩

/-! ## Claim C8 -/

/-- A shipment being assigned, and a partner with spare capacity for the
C8 counterexample. -/
def c8Shipment : Shipment :=
  { id := 9, created_at := 0, client_contact_email := "client@example.com",
    content := "Box", destination := 887,
    status := ShipmentStatus.placed, estimated_delivery := 3,
    seller_id := 7, delivery_partner_id := none, events := [] }

def c8Partner : DeliveryPartner :=
  { id := 1, name := "A", email := "a@example.com",
    max_handling_capacity := 5, shipments := [],
    servicable_locations := [887] }

/-- C8 counterexample: `assign_shipment` does mutate state — it appends
the shipment to the chosen partner's `shipments` list (length 0 before,
1 after), so the call does not leave every partner's shipment list
unchanged. -/
theorem c8_counterexample :
    c8Partner.shipments.length = 0 ∧
    (assignShipment [c8Partner] c8Shipment).toOption.map
      (fun ar => (ar.partner.shipments.length,
        ar.partners.map (fun q => q.shipments.length))) =
      some (1, [1]) :=
  ⟨rfl, rfl⟩

/-- C8 (amended): a successful `assign_shipment` appends the shipment to
the selected partner's in-memory `shipments` list — that is its only
effect; every other partner is untouched and nothing is committed
(persistence is the caller's responsibility). -/
theorem c8_assign_effect (partners : List DeliveryPartner) (s : Shipment)
    (ar : AssignResult) (h : assignShipment partners s = Except.ok ar) :
    ∃ p, p ∈ partners ∧ s.destination ∈ p.servicable_locations ∧
      ar.partner = p.withShipment s ∧
      ar.partner.shipments = p.shipments ++ [s] ∧
      ar.partners = partners.map
        (fun q => if q.id = p.id then q.withShipment s else q) ∧
      ∀ q ∈ partners, q.id ≠ p.id → q ∈ ar.partners := by
  unfold assignShipment at h
  cases hf : (getPartnerByZipcode partners s.destination).find?
      (fun p => decide (0 < p.current_handling_capacity)) with
  | none => simp only [hf] at h; cases h
  | some p =>
    simp only [hf] at h
    cases h
    have hmem : p ∈ getPartnerByZipcode partners s.destination :=
      List.mem_of_find?_eq_some hf
    rw [getPartnerByZipcode, List.mem_filter] at hmem
    refine ⟨p, hmem.1, List.elem_iff.mp hmem.2, rfl, rfl, rfl, ?_⟩
    intro q hq hne
    exact List.mem_map.mpr ⟨q, hq, by rw [if_neg hne]⟩

/-- C8 amended-claim witness: concrete assignment of `c8Shipment` to the
sole partner `c8Partner`. -/
theorem c8_assign_effect_witness :
    ∃ p, p ∈ [c8Partner] ∧ c8Shipment.destination ∈ p.servicable_locations ∧
      (c8Partner.withShipment c8Shipment) = p.withShipment c8Shipment ∧
      (c8Partner.withShipment c8Shipment).shipments = p.shipments ++ [c8Shipment] ∧
      [c8Partner.withShipment c8Shipment] = List.map
        (fun q => if q.id = p.id then q.withShipment c8Shipment else q) [c8Partner] ∧
      ∀ q ∈ [c8Partner], q.id ≠ p.id → q ∈ [c8Partner.withShipment c8Shipment] :=
  c8_assign_effect [c8Partner] c8Shipment
    ⟨c8Partner.withShipment c8Shipment, [c8Partner.withShipment c8Shipment]⟩ rfl

/-- The mutation tail of `update` never raises: once all validations have
passed the operation always returns a result. -/
theorem applyUpdate_ok (sh : Shipment) (u : ShipmentUpdate) (eid now : Nat) :
    ∃ r, applyUpdate sh u eid now = Except.ok r := by
  simp only [applyUpdate]
  by_cases hcond : ((match u.status with
      | some st => decide (st ≠ sh.status)
      | none => false) || u.location.isSome) = true
  · rw [if_pos hcond]
    exact ⟨_, rfl⟩
  · rw [if_neg hcond]
    exact ⟨_, rfl⟩

/-! ## Claim C5 -/

/-- A fresh placed shipment and a status-only update for the C5
counterexample. -/
def c5Shipment : Shipment :=
  { id := 1, created_at := 0, client_contact_email := "client@example.com",
    content := "Laptop", destination := 887,
    status := ShipmentStatus.placed, estimated_delivery := 3,
    seller_id := 7, delivery_partner_id := some 2, events := [] }

def c5Update : ShipmentUpdate :=
  ⟨some ShipmentStatus.in_transit, none, none, none, none⟩

/-- C5 counterexample: an accepted status update commits twice, and the
first committed state already carries the new status while holding no new
event — a state equal neither to the pre-call state (status `placed`) nor
to the final state (which has the event). The mutation and the event
append therefore do not commit together. -/
theorem c5_counterexample :
    c5Shipment.status = ShipmentStatus.placed ∧
    c5Shipment.events.length = 0 ∧
    (ShipmentService.update c5Shipment c5Update none none 9 5).toOption.map
      (fun r => r.commits.map (fun sh => (sh.status, sh.events.length))) =
      some [(ShipmentStatus.in_transit, 0), (ShipmentStatus.in_transit, 1)] :=
  ⟨rfl, rfl, rfl⟩

/-- C5 (amended): `update` and `cancel` commit the shipment field
mutation and the event append in two separate transactions, in that
order: an accepted update that appends an event produces exactly the
commit trace [mutated shipment without the event, mutated shipment with
the event], so a failure between the two commits leaves the field
mutation committed without its event; an accepted update that appends no
event commits once and leaves the event log unchanged. -/
theorem c5_two_phase_commit (sh : Shipment) (u : ShipmentUpdate)
    (partner : Option DeliveryPartner) (storedCode : Option String)
    (eid now : Nat) (r : UpdateResult)
    (h : ShipmentService.update sh u partner storedCode eid now = Except.ok r) :
    (r.eventAppended = true →
      ∃ s1 ev, s1.events = sh.events ∧
        r.commits = [s1, { s1 with events := s1.events ++ [ev] }] ∧
        r.shipment = { s1 with events := s1.events ++ [ev] }) ∧
    (r.eventAppended = false →
      r.commits = [r.shipment] ∧ r.shipment.events = sh.events) ∧
    (∀ sellerId r2, ShipmentService.cancel sh sellerId eid now = Except.ok r2 →
      ∃ s1 ev, s1.events = sh.events ∧
        r2.commits = [s1, { s1 with events := s1.events ++ [ev] }]) := by
  have hcancel : ∀ sellerId r2,
      ShipmentService.cancel sh sellerId eid now = Except.ok r2 →
      ∃ s1 ev, s1.events = sh.events ∧
        r2.commits = [s1, { s1 with events := s1.events ++ [ev] }] := by
    intro sid r2 hc
    unfold ShipmentService.cancel at hc
    split_ifs at hc
    cases hc
    refine ⟨{ sh with status := ShipmentStatus.cancelled },
      createEvent { sh with status := ShipmentStatus.cancelled }
        ShipmentStatus.cancelled none (some "cancelled by seller") eid now, rfl, ?_⟩
    rfl
  unfold ShipmentService.update at h
  split_ifs at h
  simp only [applyUpdate] at h
  by_cases hcond : ((match u.status with
      | some st => decide (st ≠ sh.status)
      | none => false) || u.location.isSome) = true
  · rw [if_pos hcond] at h
    cases h
    refine ⟨fun _ => ?_, fun h' => Bool.noConfusion h', hcancel⟩
    refine ⟨{ sh with
        estimated_delivery := u.estimated_delivery.getD sh.estimated_delivery,
        status := u.status.getD sh.status },
      createEvent
        { sh with
          estimated_delivery := u.estimated_delivery.getD sh.estimated_delivery,
          status := u.status.getD sh.status }
        (u.status.getD sh.status) u.location u.description eid now,
      rfl, ?_, ?_⟩
    · rfl
    · rfl
  · rw [if_neg hcond] at h
    cases h
    exact ⟨fun h' => Bool.noConfusion h', fun _ => ⟨rfl, rfl⟩, hcancel⟩

/-- The result of the concrete C5 update call. -/
def c5Result : UpdateResult :=
  ((ShipmentService.update c5Shipment c5Update none none 9 5).toOption).getD
    ⟨c5Shipment, false, []⟩

/-- C5 amended-claim witness at the concrete accepted update of
`c5Shipment`. -/
theorem c5_two_phase_commit_witness :
    (c5Result.eventAppended = true →
      ∃ s1 ev, s1.events = c5Shipment.events ∧
        c5Result.commits = [s1, { s1 with events := s1.events ++ [ev] }] ∧
        c5Result.shipment = { s1 with events := s1.events ++ [ev] }) ∧
    (c5Result.eventAppended = false →
      c5Result.commits = [c5Result.shipment] ∧
      c5Result.shipment.events = c5Shipment.events) ∧
    (∀ sellerId r2, ShipmentService.cancel c5Shipment sellerId 9 5 = Except.ok r2 →
      ∃ s1 ev, s1.events = c5Shipment.events ∧
        r2.commits = [s1, { s1 with events := s1.events ++ [ev] }]) :=
  c5_two_phase_commit c5Shipment c5Update none none 9 5 c5Result rfl

/-! ## Claim C6 -/

/-- The Bool event-creation condition of `applyUpdate`, as a
proposition: the update supplies a status different from the prior one,
or supplies a location. -/
theorem updateEventCond_iff (sh : Shipment) (u : ShipmentUpdate) :
    (((match u.status with
      | some st => decide (st ≠ sh.status)
      | none => false) || u.location.isSome) = true) ↔
    ((∃ st, u.status = some st ∧ st ≠ sh.status) ∨ u.location ≠ none) := by
  cases hs : u.status with
  | none => simp [Option.isSome_iff_ne_none]
  | some st => simp [Option.isSome_iff_ne_none]

/-- C6: an accepted `update` appends a new event if and only if it
supplies a status different from the shipment's prior status or supplies
a location; in particular an update touching only description and/or
estimated delivery leaves the event log unchanged. -/
theorem c6_event_iff_status_or_location (sh : Shipment) (u : ShipmentUpdate)
    (partner : Option DeliveryPartner) (storedCode : Option String)
    (eid now : Nat) (r : UpdateResult)
    (h : ShipmentService.update sh u partner storedCode eid now = Except.ok r) :
    (r.shipment.events.length = sh.events.length + 1 ↔
      ((∃ st, u.status = some st ∧ st ≠ sh.status) ∨ u.location ≠ none)) ∧
    (¬ ((∃ st, u.status = some st ∧ st ≠ sh.status) ∨ u.location ≠ none) →
      r.shipment.events = sh.events) := by
  unfold ShipmentService.update at h
  split_ifs at h
  simp only [applyUpdate] at h
  by_cases hcond : ((match u.status with
      | some st => decide (st ≠ sh.status)
      | none => false) || u.location.isSome) = true
  · rw [if_pos hcond] at h
    cases h
    have hrhs := (updateEventCond_iff sh u).mp hcond
    exact ⟨⟨fun _ => hrhs, fun _ => by simp⟩, fun hc => absurd hrhs hc⟩
  · rw [if_neg hcond] at h
    cases h
    have hrhs : ¬ ((∃ st, u.status = some st ∧ st ≠ sh.status) ∨ u.location ≠ none) :=
      fun hc => hcond ((updateEventCond_iff sh u).mpr hc)
    refine ⟨⟨fun hlen => ?_, fun hc => absurd hc hrhs⟩, fun _ => rfl⟩
    simp at hlen

/-- The result of a C6 witness update supplying only a description and a
new estimated delivery. -/
def c6Update : ShipmentUpdate := ⟨none, none, some "note", none, some 9⟩

def c6Result : UpdateResult :=
  ((ShipmentService.update c5Shipment c6Update none none 9 5).toOption).getD
    ⟨c5Shipment, true, []⟩

/-- C6 witness at a concrete accepted update that supplies neither a
status nor a location: no event is appended. -/
theorem c6_event_iff_status_or_location_witness :
    ((c6Result.shipment.events.length = c5Shipment.events.length + 1 ↔
      ((∃ st, c6Update.status = some st ∧ st ≠ c5Shipment.status) ∨
        c6Update.location ≠ none)) ∧
    (¬ ((∃ st, c6Update.status = some st ∧ st ≠ c5Shipment.status) ∨
        c6Update.location ≠ none) →
      c6Result.shipment.events = c5Shipment.events)) ∧
    c6Result.eventAppended = false :=
  ⟨c6_event_iff_status_or_location c5Shipment c6Update none none 9 5 c6Result rfl, rfl⟩

/-! ## Claim C10 -/

/-- C10: with no acting partner supplied, `update` performs no
authorization check at all — it can never fail with a not-authorized
error and, on a non-terminal shipment (and a non-delivered target
status), it succeeds no matter which partner is assigned; with a partner
supplied, the not-authorized error occurs exactly when that partner's id
differs from the shipment's `delivery_partner_id`. -/
theorem c10_no_auth_when_no_partner (sh : Shipment) (u : ShipmentUpdate)
    (storedCode : Option String) (eid now : Nat) :
    (∀ e, ShipmentService.update sh u none storedCode eid now = Except.error e →
      ∀ msg, e ≠ ServiceError.clientNotAuthorized msg) ∧
    (∀ p : DeliveryPartner, sh.status ≠ ShipmentStatus.cancelled →
      sh.status ≠ ShipmentStatus.delivered →
      (ShipmentService.update sh u (some p) storedCode eid now =
          Except.error (ServiceError.clientNotAuthorized "Not authorized") ↔
        sh.delivery_partner_id ≠ some p.id)) ∧
    (sh.status ≠ ShipmentStatus.cancelled → sh.status ≠ ShipmentStatus.delivered →
      u.status ≠ some ShipmentStatus.delivered →
      ∃ r, ShipmentService.update sh u none storedCode eid now = Except.ok r) := by
  refine ⟨?_, ?_, ?_⟩
  · intro e he msg
    unfold ShipmentService.update at he
    split_ifs at he with h1 h2 h3 h4 h5
    · cases he; simp
    · cases he; simp
    · simp [authFailed] at h3
    · cases he; simp
    · cases he; simp
    · obtain ⟨r, hr⟩ := applyUpdate_ok sh u eid now
      rw [hr] at he
      exact Except.noConfusion he
  · intro p hnc hnd
    unfold ShipmentService.update
    rw [if_neg hnc, if_neg hnd]
    by_cases hauth : authFailed sh (some p) = true
    · rw [if_pos hauth]
      simp only [authFailed, decide_eq_true_eq] at hauth
      exact ⟨fun _ => hauth, fun _ => rfl⟩
    · rw [if_neg hauth]
      simp only [authFailed, decide_eq_true_eq, not_not] at hauth
      constructor
      · intro heq
        exfalso
        split_ifs at heq
        · exact ServiceError.noConfusion (Except.error.inj heq)
        · exact ServiceError.noConfusion (Except.error.inj heq)
        · obtain ⟨r, hr⟩ := applyUpdate_ok sh u eid now
          rw [hr] at heq
          exact Except.noConfusion heq
      · intro hne
        exact absurd hauth hne
  · intro hnc hnd hnotdel
    unfold ShipmentService.update
    rw [if_neg hnc, if_neg hnd,
      if_neg (show ¬ authFailed sh none = true by simp [authFailed]),
      if_neg (show ¬ (u.status = some ShipmentStatus.delivered ∧
        optStrFalsy u.verification_code = true) from fun hc => hnotdel hc.1),
      if_neg (show ¬ (u.status = some ShipmentStatus.delivered ∧
        (optStrFalsy storedCode = true ∨ storedCode ≠ u.verification_code))
        from fun hc => hnotdel hc.1)]
    exact applyUpdate_ok sh u eid now

/-- A non-terminal shipment assigned to partner 2 for the C10 and C3
witnesses. -/
def c10Shipment : Shipment :=
  { id := 1, created_at := 0, client_contact_email := "client@example.com",
    content := "Laptop", destination := 887,
    status := ShipmentStatus.in_transit, estimated_delivery := 3,
    seller_id := 7, delivery_partner_id := some 2, events := [] }

def c10Update : ShipmentUpdate :=
  ⟨some ShipmentStatus.out_for_delivery, none, none, none, none⟩

/-- C10 witness at a concrete in-transit shipment and a status update to
out-for-delivery. -/
theorem c10_no_auth_when_no_partner_witness :
    ((∀ e, ShipmentService.update c10Shipment c10Update none none 9 5 = Except.error e →
      ∀ msg, e ≠ ServiceError.clientNotAuthorized msg) ∧
    (∀ p : DeliveryPartner, c10Shipment.status ≠ ShipmentStatus.cancelled →
      c10Shipment.status ≠ ShipmentStatus.delivered →
      (ShipmentService.update c10Shipment c10Update (some p) none 9 5 =
          Except.error (ServiceError.clientNotAuthorized "Not authorized") ↔
        c10Shipment.delivery_partner_id ≠ some p.id)) ∧
    (c10Shipment.status ≠ ShipmentStatus.cancelled →
      c10Shipment.status ≠ ShipmentStatus.delivered →
      c10Update.status ≠ some ShipmentStatus.delivered →
      ∃ r, ShipmentService.update c10Shipment c10Update none none 9 5 = Except.ok r)) ∧
    (∃ r, ShipmentService.update c10Shipment c10Update none none 9 5 = Except.ok r) := by
  have hmain := c10_no_auth_when_no_partner c10Shipment c10Update none 9 5
  exact ⟨hmain, hmain.2.2 (by decide) (by decide) (by decide)⟩

/-! ## Claim C3 -/

/-- C3: on an otherwise-accepted update requesting status `delivered`
(non-terminal shipment, authorization passing), a missing verification
code fails with `ValidationError`; a supplied code (never empty, per the
schema's `min_length=4`) fails with `InvalidToken` whenever the
verification-code store holds no exactly-equal code; the update succeeds
exactly when the supplied code equals the stored one. -/
theorem c3_delivery_verification (sh : Shipment) (u : ShipmentUpdate)
    (partner : Option DeliveryPartner) (storedCode : Option String) (eid now : Nat)
    (hnc : sh.status ≠ ShipmentStatus.cancelled)
    (hnd : sh.status ≠ ShipmentStatus.delivered)
    (hauth : authFailed sh partner = false)
    (hst : u.status = some ShipmentStatus.delivered) :
    (u.verification_code = none →
      ShipmentService.update sh u partner storedCode eid now =
        Except.error (ServiceError.validationError
          "Verification code is required to mark shipment as delivered")) ∧
    (∀ c, u.verification_code = some c → c ≠ "" → storedCode ≠ some c →
      ShipmentService.update sh u partner storedCode eid now =
        Except.error (ServiceError.invalidToken "Invalid or expired verification code")) ∧
    (∀ c, u.verification_code = some c → c ≠ "" → storedCode = some c →
      ∃ r, ShipmentService.update sh u partner storedCode eid now = Except.ok r) ∧
    (∀ r, ShipmentService.update sh u partner storedCode eid now = Except.ok r →
      storedCode = u.verification_code) := by
  have hauthneg : ¬ authFailed sh partner = true := by simp [hauth]
  refine ⟨?_, ?_, ?_, ?_⟩
  · intro hvc
    unfold ShipmentService.update
    rw [if_neg hnc, if_neg hnd, if_neg hauthneg,
      if_pos ⟨hst, by rw [hvc]; rfl⟩]
  · intro c hc hcne hne
    unfold ShipmentService.update
    rw [if_neg hnc, if_neg hnd, if_neg hauthneg,
      if_neg (show ¬ (u.status = some ShipmentStatus.delivered ∧
          optStrFalsy u.verification_code = true) from fun hgate => by
        rw [hc] at hgate
        exact hcne (by simpa [optStrFalsy] using hgate.2)),
      if_pos ⟨hst, Or.inr (by rw [hc]; exact hne)⟩]
  · intro c hc hcne hsc
    unfold ShipmentService.update
    rw [if_neg hnc, if_neg hnd, if_neg hauthneg,
      if_neg (show ¬ (u.status = some ShipmentStatus.delivered ∧
          optStrFalsy u.verification_code = true) from fun hgate => by
        rw [hc] at hgate
        exact hcne (by simpa [optStrFalsy] using hgate.2)),
      if_neg (show ¬ (u.status = some ShipmentStatus.delivered ∧
          (optStrFalsy storedCode = true ∨ storedCode ≠ u.verification_code))
          from fun hgate => by
        rcases hgate.2 with hfal | hne2
        · rw [hsc] at hfal
          exact hcne (by simpa [optStrFalsy] using hfal)
        · rw [hsc, hc] at hne2
          exact hne2 rfl)]
    exact applyUpdate_ok sh u eid now
  · intro r hr
    unfold ShipmentService.update at hr
    rw [if_neg hnc, if_neg hnd, if_neg hauthneg] at hr
    split_ifs at hr with g1 g2
    by_contra hne
    exact g2 ⟨hst, Or.inr hne⟩

def c3Update : ShipmentUpdate :=
  ⟨some ShipmentStatus.delivered, none, none, some "123456", none⟩

/-- C3 witness at a concrete in-transit shipment, a delivery update
carrying code 123456 and a store holding the same code: the success
branch applies and delivers. -/
theorem c3_delivery_verification_witness :
    ((c3Update.verification_code = none →
      ShipmentService.update c10Shipment c3Update none (some "123456") 9 5 =
        Except.error (ServiceError.validationError
          "Verification code is required to mark shipment as delivered")) ∧
    (∀ c, c3Update.verification_code = some c → c ≠ "" → some "123456" ≠ some c →
      ShipmentService.update c10Shipment c3Update none (some "123456") 9 5 =
        Except.error (ServiceError.invalidToken "Invalid or expired verification code")) ∧
    (∀ c, c3Update.verification_code = some c → c ≠ "" → some "123456" = some c →
      ∃ r, ShipmentService.update c10Shipment c3Update none (some "123456") 9 5 =
        Except.ok r) ∧
    (∀ r, ShipmentService.update c10Shipment c3Update none (some "123456") 9 5 =
        Except.ok r →
      some "123456" = c3Update.verification_code)) ∧
    (∃ r, ShipmentService.update c10Shipment c3Update none (some "123456") 9 5 =
      Except.ok r) := by
  have hmain := c3_delivery_verification c10Shipment c3Update none (some "123456") 9 5
    (by decide) (by decide) rfl rfl
  exact ⟨hmain, hmain.2.2.1 "123456" rfl (by decide) rfl⟩

/-! ## Claim C4 -/

/-- On a shipment with at least one event the timeline is the insertion
sort. -/
theorem timeline_eq (s : Shipment) (h : s.events ≠ []) :
    s.timeline = List.insertionSort eventDescOrder s.events := by
  simp [Shipment.timeline, h]

/-- An event history with two events: the older one (created at 1) at
location 100, the newer one (created at 2) at location 200. -/
def c4Event1 : ShipmentEvent :=
  ⟨1, 1, 100, ShipmentStatus.placed, some "first scan"⟩

def c4Event2 : ShipmentEvent :=
  ⟨2, 2, 200, ShipmentStatus.in_transit, some "second scan"⟩

def c4Shipment : Shipment :=
  { id := 1, created_at := 0, client_contact_email := "client@example.com",
    content := "Laptop", destination := 887,
    status := ShipmentStatus.in_transit, estimated_delivery := 3,
    seller_id := 7, delivery_partner_id := some 2,
    events := [c4Event1, c4Event2] }

/-- C4 counterexample: the most recent prior event (head of the
newest-first timeline) sits at location 200, yet an event appended
without an explicit location inherits location 100 — the location of the
oldest prior event, because `get_latest_event` returns `timeline[-1]`,
the last element of the newest-first timeline. -/
theorem c4_counterexample :
    (c4Shipment.timeline.head?.map (fun e => (e.created_at, e.location))) =
      some (2, 200) ∧
    (createEvent c4Shipment ShipmentStatus.out_for_delivery none none 3 5).location = 100 :=
  ⟨rfl, rfl⟩

/-- C4 (amended): an event appended without an explicit location inherits
the location of the earliest-created prior event — the one of minimal
`created_at`, i.e. the last element of the newest-first timeline — and
the shipment's destination when there are no prior events. -/
theorem c4_location_inherits_oldest (sh : Shipment) (st : ShipmentStatus)
    (d : Option String) (eid now : Nat) :
    (sh.events = [] → (createEvent sh st none d eid now).location = sh.destination) ∧
    (∀ e, getLatestEvent sh = some e →
      (createEvent sh st none d eid now).location = e.location ∧
      e ∈ sh.events ∧
      ∀ x ∈ sh.events, e.created_at ≤ x.created_at) ∧
    (sh.events ≠ [] → ∃ e, getLatestEvent sh = some e) := by
  refine ⟨?_, ?_, ?_⟩
  · intro h
    simp [createEvent, getLatestEvent, h]
  · intro e he
    have hloc : (createEvent sh st none d eid now).location = e.location := by
      simp [createEvent, he]
    have hne : sh.events ≠ [] := by
      intro hcontra
      rw [getLatestEvent, if_pos (by simp [hcontra])] at he
      exact Option.noConfusion he
    have hlast : sh.timeline.getLast? = some e := by
      rw [getLatestEvent, if_neg (by simp [hne])] at he
      by_cases h1 : sh.timeline.isEmpty
      · rw [if_pos h1] at he
        exact Option.noConfusion he
      · rwa [if_neg h1] at he
    have hperm : List.Perm (List.insertionSort eventDescOrder sh.events) sh.events :=
      List.perm_insertionSort eventDescOrder sh.events
    have hmemsort : e ∈ List.insertionSort eventDescOrder sh.events := by
      rw [← timeline_eq sh hne]
      exact mem_of_getLast?_eq_some hlast
    have hsorted : List.Pairwise eventDescOrder (List.insertionSort eventDescOrder sh.events) :=
      List.sorted_insertionSort eventDescOrder sh.events
    refine ⟨hloc, hperm.mem_iff.mp hmemsort, ?_⟩
    intro x hx
    exact sorted_getLast?_min hsorted (by rwa [timeline_eq sh hne] at hlast) x
      (hperm.mem_iff.mpr hx)
  · intro hne
    have htl : sh.timeline ≠ [] := by
      rw [timeline_eq sh hne]
      intro hcontra
      exact hne (((List.perm_insertionSort eventDescOrder sh.events).symm.trans
        (hcontra ▸ List.Perm.refl _)).eq_nil)
    obtain ⟨e, he⟩ := Option.isSome_iff_exists.mp (List.getLast?_isSome.mpr htl)
    refine ⟨e, ?_⟩
    rw [getLatestEvent, if_neg (by simp [hne]), if_neg (by simp [htl])]
    exact he

/-- C4 amended-claim witness at the two-event shipment `c4Shipment`: the
inherited location is 100, carried by `c4Event1`, the event of minimal
creation time. -/
theorem c4_location_inherits_oldest_witness :
    ((c4Shipment.events = [] →
      (createEvent c4Shipment ShipmentStatus.out_for_delivery none none 3 5).location =
        c4Shipment.destination) ∧
    (∀ e, getLatestEvent c4Shipment = some e →
      (createEvent c4Shipment ShipmentStatus.out_for_delivery none none 3 5).location =
        e.location ∧
      e ∈ c4Shipment.events ∧
      ∀ x ∈ c4Shipment.events, e.created_at ≤ x.created_at) ∧
    (c4Shipment.events ≠ [] → ∃ e, getLatestEvent c4Shipment = some e)) ∧
    getLatestEvent c4Shipment = some c4Event1 :=
  ⟨c4_location_inherits_oldest c4Shipment ShipmentStatus.out_for_delivery none 3 5, rfl⟩

/-! ## Claim C2 -/

/-- C2: the eligible partners are exactly those whose serviceable
locations contain the destination zip code; a successful assignment
returns the first of them, in retrieval order, with spare capacity
(everyone before it in the eligible list is at capacity); when every
eligible partner is at capacity — in particular when there is none — the
call raises `DeliveryPartnerNotAvailable`; and on that failure `add`
leaves the partner collection and the shipment store exactly as they
were, propagating the error: the shipment is not persisted. -/
theorem c2_assignment_first_with_capacity (partners : List DeliveryPartner)
    (s : Shipment) (store : List Shipment) (sc : ShipmentCreate)
    (sellerId newId eid now : Nat) :
    (∀ q, q ∈ getPartnerByZipcode partners s.destination ↔
      q ∈ partners ∧ s.destination ∈ q.servicable_locations) ∧
    (∀ ar, assignShipment partners s = Except.ok ar →
      ∃ p l1 l2, getPartnerByZipcode partners s.destination = l1 ++ p :: l2 ∧
        0 < p.current_handling_capacity ∧
        (∀ q ∈ l1, ¬ 0 < q.current_handling_capacity) ∧
        ar.partner = p.withShipment s) ∧
    ((∀ q ∈ getPartnerByZipcode partners s.destination,
        q.current_handling_capacity ≤ 0) →
      assignShipment partners s =
        Except.error (ServiceError.deliveryPartnerNotAvailable
          "No delivery partner available")) ∧
    (∀ e, assignShipment partners (newShipmentFor sc sellerId newId now) =
        Except.error e →
      ShipmentService.add partners store sc sellerId newId eid now =
        ⟨partners, store, Except.error e⟩) := by
  refine ⟨?_, ?_, ?_, ?_⟩
  · intro q
    simp [getPartnerByZipcode, List.mem_filter, List.elem_iff]
  · intro ar h
    unfold assignShipment at h
    cases hf : (getPartnerByZipcode partners s.destination).find?
        (fun p => decide (0 < p.current_handling_capacity)) with
    | none => simp only [hf] at h; cases h
    | some p =>
      simp only [hf] at h
      cases h
      obtain ⟨hp, l1, l2, heq, hall⟩ := find?_eq_some_split _ _ _ hf
      refine ⟨p, l1, l2, heq, of_decide_eq_true hp, ?_, rfl⟩
      intro q hq
      have := hall q hq
      simpa using this
  · intro hall
    unfold assignShipment
    have hf : (getPartnerByZipcode partners s.destination).find?
        (fun p => decide (0 < p.current_handling_capacity)) = none := by
      rw [List.find?_eq_none]
      intro q hq
      simp only [decide_eq_true_eq]
      exact fun hpos => absurd (hall q hq) (by omega)
    simp only [hf]
  · intro e he
    unfold ShipmentService.add
    simp only [he]

/-- Partner at capacity (max 1, one active shipment) listed first, and a
free partner listed second, both servicing zip 887. -/
def c2Busy : Shipment :=
  { id := 5, created_at := 0, client_contact_email := "client@example.com",
    content := "Crate", destination := 887,
    status := ShipmentStatus.placed, estimated_delivery := 3,
    seller_id := 7, delivery_partner_id := some 1, events := [] }

def c2PartnerA : DeliveryPartner :=
  { id := 1, name := "A", email := "a@example.com",
    max_handling_capacity := 1, shipments := [c2Busy],
    servicable_locations := [887] }

def c2PartnerB : DeliveryPartner :=
  { id := 2, name := "B", email := "b@example.com",
    max_handling_capacity := 3, shipments := [],
    servicable_locations := [887] }

def c2Create : ShipmentCreate := ⟨"Box", 887, "client@example.com"⟩

/-- C2 witness at a concrete two-partner directory: the instantiated
theorem, plus the evaluation showing the first-listed at-capacity partner
is skipped in favour of the second. -/
theorem c2_assignment_first_with_capacity_witness :
    ((∀ q, q ∈ getPartnerByZipcode [c2PartnerA, c2PartnerB] c8Shipment.destination ↔
      q ∈ [c2PartnerA, c2PartnerB] ∧
        c8Shipment.destination ∈ q.servicable_locations) ∧
    (∀ ar, assignShipment [c2PartnerA, c2PartnerB] c8Shipment = Except.ok ar →
      ∃ p l1 l2, getPartnerByZipcode [c2PartnerA, c2PartnerB] c8Shipment.destination =
          l1 ++ p :: l2 ∧
        0 < p.current_handling_capacity ∧
        (∀ q ∈ l1, ¬ 0 < q.current_handling_capacity) ∧
        ar.partner = p.withShipment c8Shipment) ∧
    ((∀ q ∈ getPartnerByZipcode [c2PartnerA, c2PartnerB] c8Shipment.destination,
        q.current_handling_capacity ≤ 0) →
      assignShipment [c2PartnerA, c2PartnerB] c8Shipment =
        Except.error (ServiceError.deliveryPartnerNotAvailable
          "No delivery partner available")) ∧
    (∀ e, assignShipment [c2PartnerA, c2PartnerB]
        (newShipmentFor c2Create 7 9 5) = Except.error e →
      ShipmentService.add [c2PartnerA, c2PartnerB] [] c2Create 7 9 8 5 =
        ⟨[c2PartnerA, c2PartnerB], [], Except.error e⟩)) ∧
    (assignShipment [c2PartnerA, c2PartnerB] c8Shipment).toOption.map
      (fun ar => ar.partner.id) = some 2 ∧
    assignShipment [c2PartnerA] c8Shipment =
      Except.error (ServiceError.deliveryPartnerNotAvailable
        "No delivery partner available") ∧
    (ShipmentService.add [c2PartnerA] [] c2Create 7 9 8 5).store = [] :=
  ⟨c2_assignment_first_with_capacity [c2PartnerA, c2PartnerB] c8Shipment [] c2Create 7 9 8 5,
    rfl, rfl, rfl⟩

/-! ## Claim C9 -/

/-- Invariants the tag store always satisfies when every row was created
through `add_tag`: tag rows are unique per name, and the shipment only
references rows of the tag table (the foreign key of the junction
table). -/
def tagWellFormed (st : TagState) : Prop :=
  (∀ t1 ∈ st.tagTable, ∀ t2 ∈ st.tagTable, t1.name = t2.name → t1 = t2) ∧
  (∀ t ∈ st.shipmentTags, t ∈ st.tagTable)

/-- C9: a successful `add_tag` followed by `remove_tag` of the same name
restores the shipment's tag set exactly; `add_tag` of a name already on
the shipment fails with `AlreadyExistsError` leaving the tag set
unchanged; `remove_tag` of a name not on the shipment fails with
`EntityNotFound` leaving the tag set unchanged. -/
theorem c9_tag_roundtrip (st : TagState) (n : TagName) :
    (∀ st1, ShipmentService.add_tag st n = ⟨st1, none⟩ →
      ∃ st2, ShipmentService.remove_tag st1 n = ⟨st2, none⟩ ∧
        st2.shipmentTags = st.shipmentTags) ∧
    (tagWellFormed st → (∃ t, t ∈ st.shipmentTags ∧ t.name = n) →
      ShipmentService.add_tag st n = ⟨st, some (ServiceError.alreadyExistsError
        ("Tag " ++ tagNameValue n ++ " already exists on this shipment"))⟩) ∧
    ((∀ t ∈ st.shipmentTags, t.name ≠ n) →
      ShipmentService.remove_tag st n = ⟨st, some (ServiceError.entityNotFound
        ("Tag " ++ tagNameValue n ++ " not found on this shipment"))⟩) := by
  refine ⟨?_, ?_, ?_⟩
  · intro st1 hadd
    unfold ShipmentService.add_tag at hadd
    cases hf : findTagByName st.tagTable n with
    | some tag =>
      simp only [hf] at hadd
      by_cases hmem : tag ∈ st.shipmentTags
      · rw [if_pos hmem] at hadd
        simp at hadd
      · rw [if_neg hmem] at hadd
        cases hadd
        have herase : (st.shipmentTags ++ [tag]).erase tag = st.shipmentTags := by
          rw [List.erase_append_right _ hmem]
          simp
        refine ⟨⟨st.tagTable, (st.shipmentTags ++ [tag]).erase tag, st.nextId⟩, ?_, herase⟩
        unfold ShipmentService.remove_tag
        simp only [hf]
        rw [if_pos (by simp)]
    | none =>
      simp only [hf] at hadd
      by_cases hmem : (⟨st.nextId, n, "Handle with care: " ++ tagNameValue n⟩ : Tag) ∈
          st.shipmentTags
      · rw [if_pos hmem] at hadd
        simp at hadd
      · rw [if_neg hmem] at hadd
        cases hadd
        have hf2 : findTagByName
            (st.tagTable ++ [(⟨st.nextId, n, "Handle with care: " ++ tagNameValue n⟩ : Tag)]) n =
            some (⟨st.nextId, n, "Handle with care: " ++ tagNameValue n⟩ : Tag) := by
          unfold findTagByName at hf ⊢
          rw [List.find?_append, hf]
          simp
        have herase : (st.shipmentTags ++
            [(⟨st.nextId, n, "Handle with care: " ++ tagNameValue n⟩ : Tag)]).erase
              (⟨st.nextId, n, "Handle with care: " ++ tagNameValue n⟩ : Tag) =
            st.shipmentTags := by
          rw [List.erase_append_right _ hmem]
          simp
        refine ⟨(⟨st.tagTable ++ [(⟨st.nextId, n, "Handle with care: " ++ tagNameValue n⟩ : Tag)],
          (st.shipmentTags ++
            [(⟨st.nextId, n, "Handle with care: " ++ tagNameValue n⟩ : Tag)]).erase
              (⟨st.nextId, n, "Handle with care: " ++ tagNameValue n⟩ : Tag),
          st.nextId + 1⟩ : TagState), ?_, herase⟩
        unfold ShipmentService.remove_tag
        simp only [hf2]
        rw [if_pos (by simp)]
  · rintro hwf ⟨t, htmem, htn⟩
    have httable : t ∈ st.tagTable := hwf.2 t htmem
    cases hf : findTagByName st.tagTable n with
    | none =>
      exfalso
      rw [findTagByName, List.find?_eq_none] at hf
      have hcontra : ¬ t.name = n := by simpa using hf t httable
      exact hcontra htn
    | some u =>
      have hun : u.name = n := by
        have := List.find?_some hf
        simpa using this
      have hut : u ∈ st.tagTable := List.mem_of_find?_eq_some hf
      have hut2 : u = t := hwf.1 u hut t httable (by rw [hun, htn])
      unfold ShipmentService.add_tag
      simp only [hf]
      rw [if_pos (hut2 ▸ htmem)]
  · intro hnone
    cases hf : findTagByName st.tagTable n with
    | none =>
      unfold ShipmentService.remove_tag
      simp only [hf]
    | some u =>
      have hun : u.name = n := by
        have := List.find?_some hf
        simpa using this
      have hnm : u ∉ st.shipmentTags := fun hc => hnone u hc hun
      unfold ShipmentService.remove_tag
      simp only [hf]
      rw [if_neg hnm]

/-- C9 witness at the empty tag state and the name `fragile`: the
instantiated theorem, plus the evaluated round trip (one tag after the
add, the original empty set after the remove, and a duplicate add
failing). -/
theorem c9_tag_roundtrip_witness :
    ((∀ st1, ShipmentService.add_tag ⟨[], [], 0⟩ TagName.fragile = ⟨st1, none⟩ →
      ∃ st2, ShipmentService.remove_tag st1 TagName.fragile = ⟨st2, none⟩ ∧
        st2.shipmentTags = TagState.shipmentTags ⟨[], [], 0⟩) ∧
    (tagWellFormed ⟨[], [], 0⟩ →
      (∃ t, t ∈ TagState.shipmentTags ⟨[], [], 0⟩ ∧ t.name = TagName.fragile) →
      ShipmentService.add_tag ⟨[], [], 0⟩ TagName.fragile =
        ⟨⟨[], [], 0⟩, some (ServiceError.alreadyExistsError
          ("Tag " ++ tagNameValue TagName.fragile ++
            " already exists on this shipment"))⟩) ∧
    ((∀ t ∈ TagState.shipmentTags ⟨[], [], 0⟩, t.name ≠ TagName.fragile) →
      ShipmentService.remove_tag ⟨[], [], 0⟩ TagName.fragile =
        ⟨⟨[], [], 0⟩, some (ServiceError.entityNotFound
          ("Tag " ++ tagNameValue TagName.fragile ++
            " not found on this shipment"))⟩)) ∧
    (ShipmentService.add_tag ⟨[], [], 0⟩ TagName.fragile).state.shipmentTags.length = 1 ∧
    (ShipmentService.remove_tag
      (ShipmentService.add_tag ⟨[], [], 0⟩ TagName.fragile).state
      TagName.fragile).state.shipmentTags = [] ∧
    (ShipmentService.add_tag
      (ShipmentService.add_tag ⟨[], [], 0⟩ TagName.fragile).state
      TagName.fragile).error =
      some (ServiceError.alreadyExistsError
        "Tag fragile already exists on this shipment") :=
  ⟨c9_tag_roundtrip ⟨[], [], 0⟩ TagName.fragile, rfl, rfl, rfl⟩

end FastShip
